import Mathlib

/-!
Verification development for the Spotify-Additional-Stats scraping gateway.

The definitions below are a shallow embedding of `src/server.js` and of the
richer variant in `src/unnamed/part_001` (the file with the generic
`scrapeSpotifyData` helper and its strategy fallback chain).  Pure string
processing is embedded as Lean functions; the stateful queue dispatcher is
embedded as a small-step transition relation over an explicit state record;
the fallible browser operations are given outcomes through an explicit
environment record, and thrown JS errors become `Except.error` values.
-/

namespace SpotifyStats

/-! ## Constants (src/server.js lines 10, 16, 17, 22) -/

/-- `MAX_CONCURRENT_PAGES = 2` (src/server.js line 22). -/
def MAX_CONCURRENT_PAGES : Nat := 2

/-- `CACHE_EXPIRY = 60 * 60 * 1000` ms (src/server.js line 10). -/
def CACHE_EXPIRY : Nat := 60 * 60 * 1000

/-- `BROWSER_MAX_LIFETIME = 4 * 60 * 60 * 1000` ms (src/server.js line 16). -/
def BROWSER_MAX_LIFETIME : Nat := 4 * 60 * 60 * 1000

/-- `BROWSER_RESTART_INTERVAL = 30 * 60 * 1000` ms (src/server.js line 17). -/
def BROWSER_RESTART_INTERVAL : Nat := 30 * 60 * 1000

/-! ## Identifier validation and text normalization -/

/-- The test `/^[A-Za-z0-9]{22}$/.test(id)` (src/server.js line 168,
src/unnamed/part_001 line 202): exactly 22 characters, each an ASCII
letter or digit. -/
def isValidId (s : String) : Bool :=
  s.length == 22 && s.data.all (fun c => c.isAlpha || c.isDigit)

/-- `text.replace(/\D/g, "")` (src/server.js line 192, part_001 line 323):
remove every non-digit character, i.e. keep exactly the digits. -/
def stripNonDigits (s : String) : String :=
  String.mk (s.data.filter Char.isDigit)

/-! ## Scrape tasks (part_001 `scrapeSpotifyData`, lines 193-287) -/

/-- The two entity kinds handled by `scrapeSpotifyData` (`type` option). -/
inductive SKind where
  | artist
  | track
deriving DecidableEq, Repr

/-- The `type` string used to build cache keys and error messages. -/
def kindName : SKind → String
  | .artist => "artist"
  | .track => "track"

/-- Cache key `` `${type}:${id}` `` (part_001 line 195; src/server.js lines
162 and 213 use the same `artist:`/`track:` prefixes). -/
def cacheKey (k : SKind) (id : String) : String :=
  kindName k ++ ":" ++ id

/-- A scrape result `{ [type+'Id']: id, monthlyListeners | playCount }`;
`value` holds the kind-specific field. -/
structure SResult where
  subjectId : String
  value : String
deriving DecidableEq, Repr

/-- The `processText` callbacks (part_001 lines 322-325 and 386-388):
artist results strip non-digits, track results pass the text through. -/
def processText : SKind → String → String
  | .artist, t => stripNonDigits t
  | .track, _t => _t

/-- Errors thrown inside the queued task body, by source site:
`invalidFormat` for the regex rejection, `browserUnavailable` for
"Browser restart failed.", `contextFailure`/`pageFailure` for throws from
`newContext()`/`newPage()`, `navigationFailure` for the wrapped
`page.goto` error, `readFault` for a throw from `element.innerText()`. -/
inductive SErr where
  | invalidFormat
  | browserUnavailable
  | contextFailure
  | pageFailure
  | navigationFailure
  | readFault
deriving DecidableEq, Repr

/-- Browser resource events produced by a task: acquisitions
(`newContext`, `newPage`) and the close attempts made in the `finally`
block (part_001 lines 270-285; src/server.js lines 200-203).  A close
attempt is made exactly once per acquired resource; its own failure is
caught and only logged, so the attempt itself is the observable event. -/
inductive BEvent where
  | contextOpen
  | pageOpen
  | pageClose
  | contextClose
deriving DecidableEq, BEq, Repr

/-- Outcomes of the browser-dependent operations a task performs, fixed
ahead of time so the task body is a pure function of them:
`browserLive` is `browserInstance && browserInstance.isConnected()`;
`restartOk` is whether the in-task `startBrowser()` retry leaves a live
instance; `contextOk`/`pageOk`/`gotoOk` are whether `newContext`,
`newPage`, `page.goto` succeed (false = throw); `elementText` is
`some t` when some extraction strategy locates the target element and
its text reads as `t`, `none` when every strategy fails to locate it;
`readFault` is a throw from `element.innerText()`. -/
structure ScrapeEnv where
  browserLive : Bool
  restartOk : Bool
  contextOk : Bool
  pageOk : Bool
  gotoOk : Bool
  elementText : Option String
  readFault : Bool
deriving Repr

/-- The event trace of a task that reached navigation: both resources
acquired, then both released by the `finally` block. -/
def fullTrace : List BEvent :=
  [.contextOpen, .pageOpen, .pageClose, .contextClose]

/-- The body of the queued task built by `scrapeSpotifyData`
(part_001 lines 201-286; src/server.js lines 166-204 and 217-253 are the
specialized forms with a single strategy).  Returns the task outcome
(resolution value or thrown error), the browser resource event trace,
and the cache write performed (`cache.set(cacheKey, result)` happens on
the success path only, part_001 line 263).

Control flow mirrored from the source:
1. the identifier regex check, throwing before any resource is touched;
2. the browser liveness check with one restart attempt, throwing
   "Browser restart failed." when the retry leaves no instance;
3. `newContext()`; 4. `newPage()`; 5. `page.goto` (navigation errors are
   wrapped and rethrown); 6. the strategy race, whose total failure is
   caught and leaves `element` undefined (no throw); 7. `innerText` and
   `processText` when an element was found; 8. `cache.set` and return.
The `finally` block closes whatever was acquired, in page-then-context
order, on every exit path. -/
def scrapeExecute (k : SKind) (id : String) (env : ScrapeEnv) :
    Except SErr SResult × List BEvent × Option (String × SResult) :=
  if !(isValidId id) then
    (.error .invalidFormat, [], none)
  else if !env.browserLive && !env.restartOk then
    (.error .browserUnavailable, [], none)
  else if !env.contextOk then
    (.error .contextFailure, [], none)
  else if !env.pageOk then
    (.error .pageFailure, [.contextOpen, .contextClose], none)
  else if !env.gotoOk then
    (.error .navigationFailure, fullTrace, none)
  else
    match env.elementText with
    | none =>
        let r : SResult := ⟨id, "N/A"⟩
        (.ok r, fullTrace, some (cacheKey k id, r))
    | some t =>
        if env.readFault then
          (.error .readFault, fullTrace, none)
        else
          let r : SResult := ⟨id, processText k t⟩
          (.ok r, fullTrace, some (cacheKey k id, r))

/-- An environment in which every browser operation succeeds and some
strategy locates the element with text `t`. -/
def happyEnv (t : String) : ScrapeEnv :=
  ⟨true, true, true, true, true, some t, false⟩

/-! ## The outer entry points: cache check before enqueue
(part_001 lines 193-201; src/server.js lines 161-166) -/

/-- What the outer `scrapeSpotifyData` call does synchronously: either a
cache hit returning the stored result, or handing the task to
`queueTask`.  Note the identifier is NOT examined here: the regex check
lives inside the queued task body. -/
inductive OuterStep where
  | cacheHit (r : SResult)
  | enqueued (k : SKind) (id : String)
deriving DecidableEq, Repr

/-- `cache.set` on a JS `Map`: at most one live entry per key. -/
def setCache (c : List (String × SResult)) (key : String) (v : SResult) :
    List (String × SResult) :=
  (key, v) :: c.filter (fun p => p.1 != key)

/-- The synchronous prefix of `scrapeSpotifyData` (part_001 lines
195-201): consult the cache first; on a miss, enqueue the task. -/
def scrapeOuter (c : List (String × SResult)) (k : SKind) (id : String) :
    OuterStep :=
  match c.lookup (cacheKey k id) with
  | some r => .cacheHit r
  | none => .enqueued k id

/-! ## The admission-controlled task queue (src/server.js lines 19-23,
105-154)

The JS event loop interleaves `processQueue` invocations with task
completions.  A `processQueue` invocation runs synchronously from the
guard up to the first `await`; the guard, `isProcessing = true`,
`activePages++` and `requestQueue.shift()` are one atomic block.  The
`finally` block (`activePages--; isProcessing = false;
setImmediate(processQueue)`) is likewise one atomic block.  Crucially,
`isProcessing` stays `true` from the guard until the `finally` block of
the same invocation, i.e. across `await task.execute()`. -/

/-- The module-level queue/dispatcher state of src/server.js: tasks are
identified by the `Nat` under which they were submitted.  `running`
holds the tasks some dispatcher invocation is currently busy with
(between the guarded pop and the `finally` block); `scheduled` counts
pending `setImmediate(processQueue)` callbacks; `started` and
`submitted` are histories of pops and of `queueTask` pushes, oldest
first, kept for stating ordering properties. -/
structure QState where
  queue : List Nat
  isProcessing : Bool
  activePages : Nat
  running : List Nat
  scheduled : Nat
  started : List Nat
  submitted : List Nat
deriving DecidableEq, Repr

/-- The state right after `startServer()` ran (src/server.js lines
316-333): empty queue, no task in flight, and `MAX_CONCURRENT_PAGES`
initial `setImmediate(processQueue)` kicks pending (line 330-332). -/
def initQ : QState :=
  ⟨[], false, 0, [], MAX_CONCURRENT_PAGES, [], []⟩

/-- One atomic event of the queue system.
`submit`: `queueTask` pushes a task and schedules a dispatcher tick
(lines 149-154).
`tickSkip`: a scheduled `processQueue` runs and returns at the guard
(line 106-108).
`tickPop`: a scheduled `processQueue` passes the guard: sets
`isProcessing`, increments `activePages`, shifts the head task and
starts working on it (lines 110-123).
`complete`: the dispatcher invocation busy with task `t` finishes
(resolve or reject) and runs its `finally` block: `activePages--`,
`isProcessing = false`, one more tick scheduled (lines 134-140). -/
inductive QStep : QState → QState → Prop where
  | submit (s : QState) (t : Nat) :
      QStep s { s with queue := s.queue ++ [t],
                       scheduled := s.scheduled + 1,
                       submitted := s.submitted ++ [t] }
  | tickSkip (s : QState) (h : 0 < s.scheduled)
      (hguard : s.isProcessing = true ∨ s.queue = [] ∨
        MAX_CONCURRENT_PAGES ≤ s.activePages) :
      QStep s { s with scheduled := s.scheduled - 1 }
  | tickPop (s : QState) (t : Nat) (rest : List Nat)
      (h : 0 < s.scheduled) (hp : s.isProcessing = false)
      (hq : s.queue = t :: rest)
      (ha : s.activePages < MAX_CONCURRENT_PAGES) :
      QStep s { s with scheduled := s.scheduled - 1,
                       isProcessing := true,
                       activePages := s.activePages + 1,
                       queue := rest,
                       running := s.running ++ [t],
                       started := s.started ++ [t] }
  | complete (s : QState) (t : Nat) (h : t ∈ s.running) :
      QStep s { s with running := s.running.erase t,
                       activePages := s.activePages - 1,
                       isProcessing := false,
                       scheduled := s.scheduled + 1 }

/-- States reachable from the post-startup state. -/
inductive QReach : QState → Prop where
  | head : QReach initQ
  | step {s s' : QState} : QReach s → QStep s s' → QReach s'

/-- The dispatcher invariant: `activePages` counts exactly the busy
dispatcher invocations; the re-entrancy flag is set exactly while one is
busy; hence at most one is ever busy; and the pop history followed by
the still-queued tasks is exactly the submission history. -/
def QInv (s : QState) : Prop :=
  s.activePages = s.running.length ∧
  (s.isProcessing = true ↔ s.running ≠ []) ∧
  s.running.length ≤ 1 ∧
  s.started ++ s.queue = s.submitted

lemma qinv_init : QInv initQ := by
  refine ⟨rfl, ?_, ?_, rfl⟩ <;> simp [initQ]

lemma length_le_one_mem {t : Nat} {l : List Nat}
    (hl : l.length ≤ 1) (ht : t ∈ l) : l = [t] := by
  cases l with
  | nil => cases ht
  | cons a l' =>
    cases l' with
    | nil =>
        cases ht with
        | head => rfl
        | tail _ h => cases h
    | cons b l'' => simp at hl

lemma qinv_step {s s' : QState} (h : QInv s) (hs : QStep s s') : QInv s' := by
  obtain ⟨h1, h2, h3, h4⟩ := h
  cases hs with
  | submit t =>
      refine ⟨h1, h2, h3, ?_⟩
      simp only [← List.append_assoc, h4]
  | tickSkip hn hguard =>
      exact ⟨h1, h2, h3, h4⟩
  | tickPop t rest hn hp hq ha =>
      have hrun : s.running = [] := by
        by_contra hne
        exact absurd (h2.mpr hne) (by simp [hp])
      have hlen : s.activePages = 0 := by
        rw [h1, hrun]; rfl
      refine ⟨?_, by simp, by simp [hrun], ?_⟩
      · simp [hrun, hlen]
      · simp only [List.append_assoc, List.singleton_append, ← hq, h4]
  | complete t ht =>
      have hrun : s.running = [t] := length_le_one_mem h3 ht
      have hlen : s.activePages = 1 := by
        rw [h1, hrun]; rfl
      refine ⟨?_, ?_, ?_, h4⟩ <;> simp [hrun, hlen, List.erase_cons_head]

lemma qreach_inv {s : QState} (h : QReach s) : QInv s := by
  induction h with
  | head => exact qinv_init
  | step _ hs ih => exact qinv_step ih hs

/-! ## Resource supervisor: `startBrowser` and `checkBrowserHealth`
(src/server.js lines 28-56 and 61-81) -/

/-- The module-level browser state: `browserInstance` (handles named by
`Nat`, `none` = JS `null`) and `browserLastRestart`. -/
structure BrowserState where
  browserInstance : Option Nat
  browserLastRestart : Nat
deriving DecidableEq, Repr

/-- Outcomes of the primitive operations `startBrowser` performs:
`closeFault` is whether closing the previous instance rejects (that
rejection is swallowed by `.catch` and only logged, line 31);
`launched` is the outcome of `chromium.launch` (`none` = throw);
`now` is `Date.now()` at launch time. -/
structure LaunchEnv where
  closeFault : Bool
  launched : Option Nat
  now : Nat
deriving DecidableEq, Repr

/-- The `try` block of `startBrowser` without its `catch` (lines 29-50):
close any existing instance (close errors swallowed), null the handle,
then launch; on success record the restart time and return `true`.  The
only statement that can throw out of the block is the launch. -/
def startBrowserBody (_st : BrowserState) (env : LaunchEnv) :
    Except Unit (BrowserState × Bool) :=
  match env.launched with
  | some h => .ok (⟨some h, env.now⟩, true)
  | none => .error ()

/-- `startBrowser` (lines 28-56): the body wrapped in the catch-all that
nulls the handle and returns `false` (lines 51-55).  The resulting
function is total — the JS promise never rejects. -/
def startBrowser (st : BrowserState) (env : LaunchEnv) :
    BrowserState × Bool :=
  match startBrowserBody st env with
  | .ok r => r
  | .error _ => (⟨none, st.browserLastRestart⟩, false)

/-- How a `checkBrowserHealth` run unfolded: `forcedRestart` — handle
absent or over-age, `start()` called unconditionally without probing;
`probedHealthy` — liveness probe (open + close a context) succeeded, no
restart; `probedRestart` — probe threw, `start()` called. -/
inductive HealthOutcome where
  | forcedRestart
  | probedHealthy
  | probedRestart
deriving DecidableEq, Repr

/-- Whether the outcome involved a call to `startBrowser`. -/
def startInvoked : HealthOutcome → Bool
  | .probedHealthy => false
  | _ => true

/-- Whether the outcome involved the liveness probe. -/
def probePerformed : HealthOutcome → Bool
  | .forcedRestart => false
  | _ => true

/-- Environment for one health check: current time, whether the
open-and-close context probe succeeds, and the environment for a
possible inner `startBrowser` call. -/
structure HealthEnv where
  now : Nat
  probeOk : Bool
  launchEnv : LaunchEnv
deriving DecidableEq, Repr

/-- `checkBrowserHealth` (lines 61-81): compute the browser age; if the
age exceeds `BROWSER_MAX_LIFETIME` or the handle is absent, call
`start()` unconditionally and return; otherwise probe by opening and
immediately closing a context, and call `start()` exactly when the
probe throws. -/
def checkBrowserHealth (st : BrowserState) (env : HealthEnv) :
    BrowserState × HealthOutcome :=
  let browserAge := env.now - st.browserLastRestart
  if BROWSER_MAX_LIFETIME < browserAge || st.browserInstance.isNone then
    ((startBrowser st env.launchEnv).1, .forcedRestart)
  else if env.probeOk then
    (st, .probedHealthy)
  else
    ((startBrowser st env.launchEnv).1, .probedRestart)

/-! ## Whole-system request model for cache behaviour (C9)

Requests either hit the cache (src/server.js line 162: before
`queueTask`) or enqueue a scrape task whose later execution is
`scrapeExecute`.  `scrapeCount` counts browsing contexts actually
opened, i.e. units of real scraping work. -/

/-- Number of occurrences of event `e` in a trace. -/
def countEvent (e : BEvent) (es : List BEvent) : Nat :=
  (es.filter (fun x => x == e)).length

/-- Number of `contextOpen` events in a trace. -/
def countContextOpens (es : List BEvent) : Nat :=
  countEvent .contextOpen es

/-- System state: the cache, the pending task queue (kind and id pairs),
how many browsing contexts the scraper has opened so far, and the
responses delivered to callers. -/
structure Sys where
  cache : List (String × SResult)
  queue : List (SKind × String)
  scrapeCount : Nat
  responses : List SResult
deriving Repr

/-- The pre-traffic system state. -/
def emptySys : Sys := ⟨[], [], 0, []⟩

/-- An incoming HTTP request for `(k, id)`: the cache is consulted
before queue submission; a hit responds immediately and touches nothing
else, a miss enqueues the task (src/server.js lines 161-166). -/
def request (s : Sys) (k : SKind) (id : String) : Sys :=
  match scrapeOuter s.cache k id with
  | .cacheHit r => { s with responses := s.responses ++ [r] }
  | .enqueued k' id' => { s with queue := s.queue ++ [(k', id')] }

/-- The dispatcher executes the head task under environment `env`:
its cache write is applied, its opened contexts are counted, and its
resolution value (if any) is delivered. -/
def runHeadTask (env : ScrapeEnv) (s : Sys) : Sys :=
  match s.queue with
  | [] => s
  | (k, id) :: rest =>
      let out := scrapeExecute k id env
      { cache := match out.2.2 with
          | some (key, v) => setCache s.cache key v
          | none => s.cache,
        queue := rest,
        scrapeCount := s.scrapeCount + countContextOpens out.2.1,
        responses := match out.1 with
          | .ok r => s.responses ++ [r]
          | .error _ => s.responses }

/-- One fully sequential round: a request for `(k, id)` followed by the
dispatcher draining it (if it enqueued anything) before the next request
arrives.  Scrapes succeed with element text `t`. -/
def seqRound (k : SKind) (id t : String) (s : Sys) : Sys :=
  runHeadTask (happyEnv t) (request s k id)

/-! ## Helper lemmas -/

/-- With every browser operation succeeding and element text `t`, a task
on a valid id resolves with the kind-normalized text, after a full
acquire/release trace, caching the result. -/
lemma scrapeExecute_happy (k : SKind) (id t : String)
    (hv : isValidId id = true) :
    scrapeExecute k id (happyEnv t) =
      (.ok ⟨id, processText k t⟩, fullTrace,
        some (cacheKey k id, ⟨id, processText k t⟩)) := by
  simp [scrapeExecute, happyEnv, hv]

lemma stripNonDigits_eq_empty (t : String)
    (h : t.data.all (fun c => !c.isDigit) = true) :
    stripNonDigits t = "" := by
  unfold stripNonDigits
  have hf : t.data.filter Char.isDigit = [] := by
    rw [List.filter_eq_nil_iff]
    intro a ha
    have := List.all_eq_true.mp h a ha
    simpa using this
  rw [hf]

lemma stripNonDigits_ne_NA (t : String) : stripNonDigits t ≠ "N/A" := by
  intro h
  have hd : (stripNonDigits t).data = t.data.filter Char.isDigit := rfl
  have hmem : 'N' ∈ t.data.filter Char.isDigit := by
    rw [← hd, h]
    decide
  have : Char.isDigit 'N' = true := (List.mem_filter.mp hmem).2
  exact absurd this (by decide)

lemma lookup_setCache_self (c : List (String × SResult)) (key : String)
    (v : SResult) : (setCache c key v).lookup key = some v := by
  simp [setCache, List.lookup]

/-! ## Concrete states used by the witnesses -/

/-- `initQ` after `queueTask` pushed task 1. -/
def qA : QState := ⟨[1], false, 0, [], 3, [], [1]⟩

/-- `qA` after `queueTask` pushed task 2. -/
def qB : QState := ⟨[1, 2], false, 0, [], 4, [], [1, 2]⟩

/-- `qB` after a dispatcher tick popped task 1 and started it: task 1 is
in flight, task 2 still queued, a tick pending, one free page slot. -/
def qC : QState := ⟨[2], true, 1, [1], 3, [1], [1, 2]⟩

lemma qstep_init_qA : QStep initQ qA := QStep.submit initQ 1

lemma qstep_qA_qB : QStep qA qB := QStep.submit qA 2

lemma qstep_qB_qC : QStep qB qC :=
  QStep.tickPop qB 1 [2] (by decide) rfl rfl (by decide)

lemma qreach_qC : QReach qC :=
  .step (.step (.step .head qstep_init_qA) qstep_qA_qB) qstep_qB_qC

/-- The 22-character lowercase id used in witnesses. -/
def validIdA : String := "aaaaaaaaaaaaaaaaaaaaaa"

/-- The stub track id from the spec's end-to-end property. -/
def trackStubId : String := "1301WleyT98MSxVHPZCA6M"

/-- A malformed identifier from the spec's test list. -/
def badId : String := "../etc"

/-- Element text used in witnesses. -/
def sampleText : String := "123"

/-- Element text with no digit characters. -/
def wordsText : String := "no listeners yet"

/-- All browser operations succeed but no strategy locates the element. -/
def noElementEnv : ScrapeEnv := ⟨true, true, true, true, true, none, false⟩

/-- A launch environment whose `chromium.launch` throws. -/
def failLaunch : LaunchEnv := ⟨false, none, 0⟩

/-- A launch environment whose launch yields handle 3 at time 9. -/
def okLaunch : LaunchEnv := ⟨false, some 3, 9⟩

/-- A browser state holding handle 7 restarted at time 5. -/
def bState : BrowserState := ⟨some 7, 5⟩

/-- An absent browser handle. -/
def noB : BrowserState := ⟨none, 0⟩

/-- A live, young browser handle. -/
def liveB : BrowserState := ⟨some 1, 0⟩

/-- Health-check environment at time 10 with a succeeding probe. -/
def hEnvOk : HealthEnv := ⟨10, true, okLaunch⟩

/-- Health-check environment at time 10 with a throwing probe. -/
def hEnvBad : HealthEnv := ⟨10, false, okLaunch⟩

/-- Two back-to-back requests for the same valid key, both arriving
before the dispatcher runs either task, then both tasks executed. -/
def twoRapid : Sys :=
  runHeadTask (happyEnv sampleText)
    (runHeadTask (happyEnv sampleText)
      (request (request emptySys .artist validIdA) .artist validIdA))

/-! ## Claim theorems -/

/-- C1: in every state reachable by any sequence of task submissions,
dispatcher ticks and completions, the `activePages` counter stays at or
below `MAX_CONCURRENT_PAGES`: the dispatcher increments it only under
the guard `activePages < MAX_CONCURRENT_PAGES` and every completion's
`finally` block decrements it. -/
theorem c1_activePages_bounded (s : QState) (h : QReach s) :
    s.activePages ≤ MAX_CONCURRENT_PAGES := by
  have hi := qreach_inv h
  rw [hi.1]
  exact le_trans hi.2.2.1 (by decide)

theorem c1_activePages_bounded_witness :
    qC.activePages ≤ MAX_CONCURRENT_PAGES :=
  c1_activePages_bounded qC qreach_qC

/-- C5 (evaluating the code at the failing scenario): execution is in
fact serialized — in every reachable state at most one task is in
flight, and no step taken while a task is in flight starts another task,
because `isProcessing` stays `true` across `await task.execute()` and
the dispatcher guard returns immediately while it is set.  This
contradicts the claimed concurrent admission of up to
`MAX_CONCURRENT_PAGES` tasks. -/
theorem c5_tasks_serialized (s : QState) (h : QReach s) :
    s.running.length ≤ 1 ∧
    (∀ s', QStep s s' → s.running ≠ [] → s'.started = s.started) := by
  have hi := qreach_inv h
  refine ⟨hi.2.2.1, ?_⟩
  intro s' hs hne
  cases hs with
  | submit t => rfl
  | tickSkip hn hguard => rfl
  | tickPop t rest hn hp hq ha =>
      exact absurd (hi.2.1.mpr hne) (by simp [hp])
  | complete t ht => rfl

theorem c5_tasks_serialized_witness :
    qC.running.length ≤ 1 ∧
    ({ qC with scheduled := qC.scheduled - 1 } : QState).started =
      qC.started :=
  ⟨(c5_tasks_serialized qC qreach_qC).1,
    (c5_tasks_serialized qC qreach_qC).2 _
      (QStep.tickSkip qC (by decide) (Or.inl rfl)) (by decide)⟩

/-- C6: strict FIFO admission — in every reachable state the history of
started (popped) tasks followed by the still-queued tasks equals the
submission history, so tasks are started exactly in submission order
(the start history is always a prefix of the submission history),
regardless of the order in which completions occur. -/
theorem c6_fifo_order (s : QState) (h : QReach s) :
    s.started ++ s.queue = s.submitted ∧
    s.started = s.submitted.take s.started.length := by
  have h4 := (qreach_inv h).2.2.2
  refine ⟨h4, ?_⟩
  rw [← h4]
  exact (List.take_left _ _).symm

theorem c6_fifo_order_witness :
    qC.started ++ qC.queue = qC.submitted ∧
    qC.started = qC.submitted.take qC.started.length :=
  c6_fifo_order qC qreach_qC

/-- C2 counterexample: the malformed identifier `"../etc"` is NOT
rejected before queueing — the cache-missing request is handed to
`queueTask` (the identifier regex is checked only inside the queued task
body), so the claim's "rejected ... before the task is enqueued" fails
at this concrete input. -/
theorem c2_counterexample :
    scrapeOuter [] .artist badId = .enqueued .artist badId ∧
    isValidId badId = false := by
  decide

/-- C2 as amended: a request with a malformed identifier is still
enqueued (nothing checks the identifier before `queueTask`); the queued
task then rejects with the invalid-format error during execution, before
any browsing context or page is created (its event trace is empty) and
without caching anything. -/
theorem c2_rejected_inside_task (k : SKind) (id : String)
    (c : List (String × SResult)) (env : ScrapeEnv)
    (hv : isValidId id = false)
    (hc : c.lookup (cacheKey k id) = none) :
    scrapeOuter c k id = .enqueued k id ∧
    scrapeExecute k id env = (.error .invalidFormat, [], none) := by
  constructor
  · simp [scrapeOuter, hc]
  · simp [scrapeExecute, hv]

theorem c2_rejected_inside_task_witness :
    scrapeOuter [] .artist badId = .enqueued .artist badId ∧
    scrapeExecute .artist badId noElementEnv =
      (.error .invalidFormat, [], none) :=
  c2_rejected_inside_task .artist badId [] noElementEnv
    (by decide) (by decide)

/-- C3: when a task on a valid identifier reaches the extraction phase
(browser live or restarted, context, page and navigation all succeed)
and every extraction strategy fails to locate the target element, the
task resolves successfully with value `"N/A"`: no error is thrown or
propagated, the resources are released, and the `"N/A"` result is even
cached. -/
theorem c3_all_strategies_fail_NA (k : SKind) (id : String)
    (env : ScrapeEnv) (hv : isValidId id = true)
    (hb : env.browserLive = true ∨ env.restartOk = true)
    (hc : env.contextOk = true) (hp : env.pageOk = true)
    (hg : env.gotoOk = true) (he : env.elementText = none) :
    scrapeExecute k id env =
      (.ok ⟨id, "N/A"⟩, fullTrace, some (cacheKey k id, ⟨id, "N/A"⟩)) := by
  rcases env with ⟨bl, ro, co, po, go, et, rf⟩
  simp only at hb hc hp hg he
  subst hc hp hg he
  rcases hb with hb | hb <;> subst hb <;> simp [scrapeExecute, hv]

theorem c3_all_strategies_fail_NA_witness :
    scrapeExecute .track trackStubId noElementEnv =
      (.ok ⟨trackStubId, "N/A"⟩, fullTrace,
        some (cacheKey .track trackStubId, ⟨trackStubId, "N/A"⟩)) :=
  c3_all_strategies_fail_NA .track trackStubId noElementEnv
    (by decide) (Or.inl rfl) rfl rfl rfl rfl

/-- C4: on every exit path of a scrape task — validation rejection,
browser unavailable, context or page acquisition failure, navigation
failure, extraction finding nothing (`"N/A"`), extraction read fault,
and normal success — each acquired page and each acquired context is
closed exactly once: in the task's event trace, close events match
acquisition events one-for-one, and each resource is acquired at most
once. -/
theorem c4_acquired_always_closed (k : SKind) (id : String)
    (env : ScrapeEnv) :
    countEvent .pageClose (scrapeExecute k id env).2.1 =
      countEvent .pageOpen (scrapeExecute k id env).2.1 ∧
    countEvent .contextClose (scrapeExecute k id env).2.1 =
      countEvent .contextOpen (scrapeExecute k id env).2.1 ∧
    countEvent .pageOpen (scrapeExecute k id env).2.1 ≤ 1 ∧
    countEvent .contextOpen (scrapeExecute k id env).2.1 ≤ 1 := by
  have htr : (scrapeExecute k id env).2.1 = [] ∨
      (scrapeExecute k id env).2.1 = [.contextOpen, .contextClose] ∨
      (scrapeExecute k id env).2.1 = fullTrace := by
    rcases env with ⟨bl, ro, co, po, go, et, rf⟩
    rcases et with _ | t <;>
      cases bl <;> cases ro <;> cases co <;> cases po <;> cases go <;>
      cases rf <;> cases hvi : isValidId id <;>
      simp [scrapeExecute, hvi]
  rcases htr with h | h | h <;> rw [h] <;> decide

/-- C10: when the located monthly-listeners element's text contains no
digit characters, `getMonthlyListeners` resolves with
`monthlyListeners = ""` (the `replace(/\D/g, "")` normalization of a
digitless string), not `"N/A"`, and that empty-string result is exactly
what gets cached; and on any successful artist scrape, a `"N/A"` value
occurs only when no element was obtained at all. -/
theorem c10_digitless_empty (id t : String) (env : ScrapeEnv)
    (hv : isValidId id = true)
    (hb : env.browserLive = true ∨ env.restartOk = true)
    (hc : env.contextOk = true) (hp : env.pageOk = true)
    (hg : env.gotoOk = true) (he : env.elementText = some t)
    (hr : env.readFault = false)
    (hnd : t.data.all (fun c => !c.isDigit) = true) :
    scrapeExecute .artist id env =
      (.ok ⟨id, ""⟩, fullTrace, some (cacheKey .artist id, ⟨id, ""⟩)) ∧
    (∀ (env' : ScrapeEnv) (r : SResult) (es : List BEvent)
        (cu : Option (String × SResult)),
      scrapeExecute .artist id env' = (.ok r, es, cu) →
      r.value = "N/A" → env'.elementText = none) := by
  constructor
  · rcases env with ⟨bl, ro, co, po, go, et, rf⟩
    simp only at hb hc hp hg he hr
    subst hc hp hg he hr
    have hs : stripNonDigits t = "" := stripNonDigits_eq_empty t hnd
    rcases hb with hb | hb <;> subst hb <;>
      simp [scrapeExecute, hv, processText, hs]
  · intro env' r es cu heq hna
    rcases env' with ⟨bl, ro, co, po, go, et, rf⟩
    rcases et with _ | t'
    · rfl
    · exfalso
      cases bl <;> cases ro <;> cases co <;> cases po <;> cases go <;>
        cases rf <;> simp [scrapeExecute, hv, processText] at heq <;>
        rw [← heq.1] at hna <;> exact stripNonDigits_ne_NA t' hna

theorem c10_digitless_empty_witness :
    scrapeExecute .artist validIdA (happyEnv wordsText) =
      (.ok ⟨validIdA, ""⟩, fullTrace,
        some (cacheKey .artist validIdA, ⟨validIdA, ""⟩)) ∧
    ((happyEnv sampleText).elementText = none ∨
      (⟨validIdA, stripNonDigits sampleText⟩ : SResult).value ≠ "N/A") :=
  ⟨(c10_digitless_empty validIdA wordsText (happyEnv wordsText)
      (by decide) (Or.inl rfl) rfl rfl rfl rfl rfl (by decide)).1,
    Or.inr (by decide)⟩

/-- C7: `startBrowser` never throws past its boundary — it is a total
function of the launch outcome returning a boolean: `true` exactly when
the launch succeeded (in which case the handle and restart time are
recorded), `false` on launch failure, in which case the catch block has
left the browser handle `null`. -/
theorem c7_startBrowser_total (st : BrowserState) (env : LaunchEnv) :
    ((startBrowser st env).2 = true ↔ env.launched.isSome = true) ∧
    ((startBrowser st env).2 = false →
      (startBrowser st env).1.browserInstance = none) ∧
    (∀ h : Nat, env.launched = some h →
      startBrowser st env = (⟨some h, env.now⟩, true)) := by
  rcases env with ⟨cf, l, now⟩
  rcases l with _ | h <;> simp [startBrowser, startBrowserBody]

theorem c7_startBrowser_total_witness :
    (startBrowser bState failLaunch).1.browserInstance = none ∧
    startBrowser bState okLaunch = (⟨some 3, 9⟩, true) :=
  ⟨(c7_startBrowser_total bState failLaunch).2.1 rfl,
    (c7_startBrowser_total bState okLaunch).2.2 3 rfl⟩

/-- C8: the periodic health check calls `start()` unconditionally (and
performs no probe) when the handle is absent or the browser age exceeds
`BROWSER_MAX_LIFETIME`; otherwise it performs the open-and-close context
liveness probe and calls `start()` if and only if that probe fails. -/
theorem c8_healthCheck_policy (st : BrowserState) (env : HealthEnv) :
    ((st.browserInstance = none ∨
        BROWSER_MAX_LIFETIME < env.now - st.browserLastRestart) →
      (checkBrowserHealth st env).2 = .forcedRestart ∧
      startInvoked (checkBrowserHealth st env).2 = true ∧
      probePerformed (checkBrowserHealth st env).2 = false) ∧
    (st.browserInstance ≠ none →
      env.now - st.browserLastRestart ≤ BROWSER_MAX_LIFETIME →
      probePerformed (checkBrowserHealth st env).2 = true ∧
      (startInvoked (checkBrowserHealth st env).2 = true ↔
        env.probeOk = false)) := by
  rcases st with ⟨bi, lr⟩
  rcases env with ⟨now, po, le⟩
  constructor
  · intro h
    rcases bi with _ | b
    · simp [checkBrowserHealth, startInvoked, probePerformed]
    · rcases h with h | h
      · exact absurd h (by simp)
      · simp [checkBrowserHealth, h, startInvoked, probePerformed]
  · intro hne hage
    rcases bi with _ | b
    · exact absurd rfl hne
    · have hlt : ¬(BROWSER_MAX_LIFETIME < now - lr) := not_lt.mpr hage
      cases po <;>
        simp [checkBrowserHealth, hlt, startInvoked, probePerformed]

theorem c8_healthCheck_policy_witness :
    ((checkBrowserHealth noB hEnvOk).2 = .forcedRestart ∧
      startInvoked (checkBrowserHealth noB hEnvOk).2 = true ∧
      probePerformed (checkBrowserHealth noB hEnvOk).2 = false) ∧
    (probePerformed (checkBrowserHealth liveB hEnvBad).2 = true ∧
      (startInvoked (checkBrowserHealth liveB hEnvBad).2 = true ↔
        hEnvBad.probeOk = false)) :=
  ⟨(c8_healthCheck_policy noB hEnvOk).1 (Or.inl rfl),
    (c8_healthCheck_policy liveB hEnvBad).2 (by simp [liveB]) (by decide)⟩

/-! ## Cache behaviour lemmas (C9) -/

lemma request_hit {s : Sys} {k : SKind} {id : String} {r : SResult}
    (h : s.cache.lookup (cacheKey k id) = some r) :
    request s k id = { s with responses := s.responses ++ [r] } := by
  simp [request, scrapeOuter, h]

lemma request_miss {s : Sys} {k : SKind} {id : String}
    (h : s.cache.lookup (cacheKey k id) = none) :
    request s k id = { s with queue := s.queue ++ [(k, id)] } := by
  simp [request, scrapeOuter, h]

lemma runHeadTask_nil {env : ScrapeEnv} {s : Sys} (h : s.queue = []) :
    runHeadTask env s = s := by
  simp [runHeadTask, h]

lemma countContextOpens_fullTrace : countContextOpens fullTrace = 1 := by
  decide

lemma seqRound_first {k : SKind} {id t : String} {s : Sys}
    (hv : isValidId id = true)
    (hm : s.cache.lookup (cacheKey k id) = none) (hq : s.queue = []) :
    seqRound k id t s =
      ⟨setCache s.cache (cacheKey k id) ⟨id, processText k t⟩, [],
        s.scrapeCount + 1, s.responses ++ [⟨id, processText k t⟩]⟩ := by
  unfold seqRound
  rw [request_miss hm]
  simp [runHeadTask, hq, scrapeExecute_happy k id t hv,
    countContextOpens_fullTrace]

lemma seqRound_steady {k : SKind} {id t : String} {r : SResult} {s : Sys}
    (hl : s.cache.lookup (cacheKey k id) = some r) (hq : s.queue = []) :
    seqRound k id t s = { s with responses := s.responses ++ [r] } := by
  unfold seqRound
  rw [request_hit hl]
  exact runHeadTask_nil (by simp [hq])

lemma seqRound_iter (k : SKind) (id t : String)
    (hv : isValidId id = true) (n : Nat) :
    ((seqRound k id t)^[n + 1] emptySys).scrapeCount = 1 ∧
    ((seqRound k id t)^[n + 1] emptySys).queue = [] ∧
    ((seqRound k id t)^[n + 1] emptySys).cache.lookup (cacheKey k id) =
      some ⟨id, processText k t⟩ := by
  induction n with
  | zero =>
      have hm : (emptySys : Sys).cache.lookup (cacheKey k id) = none := rfl
      rw [Function.iterate_succ_apply', Function.iterate_zero_apply]
      rw [seqRound_first hv hm rfl]
      exact ⟨rfl, rfl, lookup_setCache_self _ _ _⟩
  | succ m ih =>
      obtain ⟨hc, hq, hl⟩ := ih
      rw [Function.iterate_succ_apply', seqRound_steady hl hq]
      exact ⟨hc, hq, hl⟩

/-- C9 counterexample: two repeated requests for the same valid key,
both arriving before the first task completes (so the cache, written
only on completion, is still empty for both), each enqueue a task and
each task performs a full scrape: the scraper opens two browsing
contexts, contradicting the claimed "at most once" for N repeated
requests within the TTL window (no expiry occurs in this scenario). -/
theorem c9_counterexample :
    isValidId validIdA = true ∧
    twoRapid.scrapeCount = 2 ∧ ¬(twoRapid.scrapeCount ≤ 1) := by
  refine ⟨by decide, rfl, by decide⟩

/-- C9 as amended: a request for a key with a live cache entry returns
the cached result while leaving the task queue, the cache and the
scrape-work counter untouched (no task is enqueued, no concurrency slot
is taken, the scraper is not invoked); and among N repeated requests for
the same valid key within the TTL window the scraper is invoked at most
once PROVIDED each request is issued after the previous one completed —
concurrent duplicates may each invoke the scraper, since the cache is
written only on task completion. -/
theorem c9_cache_short_circuit :
    (∀ (s : Sys) (k : SKind) (id : String) (r : SResult),
      s.cache.lookup (cacheKey k id) = some r →
      (request s k id).queue = s.queue ∧
      (request s k id).cache = s.cache ∧
      (request s k id).scrapeCount = s.scrapeCount ∧
      (request s k id).responses = s.responses ++ [r]) ∧
    (∀ (k : SKind) (id t : String), isValidId id = true →
      ∀ n : Nat, ((seqRound k id t)^[n + 1] emptySys).scrapeCount = 1) := by
  constructor
  · intro s k id r h
    rw [request_hit h]
    exact ⟨rfl, rfl, rfl, rfl⟩
  · intro k id t hv n
    exact (seqRound_iter k id t hv n).1

/-- A system state whose cache holds a live entry for the witness key. -/
def cachedSys : Sys :=
  ⟨[(cacheKey .artist validIdA, ⟨validIdA, sampleText⟩)], [], 1, []⟩

theorem c9_cache_short_circuit_witness :
    ((request cachedSys .artist validIdA).queue = cachedSys.queue ∧
      (request cachedSys .artist validIdA).cache = cachedSys.cache ∧
      (request cachedSys .artist validIdA).scrapeCount =
        cachedSys.scrapeCount ∧
      (request cachedSys .artist validIdA).responses =
        cachedSys.responses ++ [⟨validIdA, sampleText⟩]) ∧
    ((seqRound .artist validIdA sampleText)^[1 + 1] emptySys).scrapeCount =
      1 :=
  ⟨c9_cache_short_circuit.1 cachedSys .artist validIdA
      ⟨validIdA, sampleText⟩ (by decide),
    c9_cache_short_circuit.2 .artist validIdA sampleText (by decide) 1⟩

end SpotifyStats
